import Mathlib

/-!
# Verification of `guardrails.py`

A shallow embedding of the PII guardrailing pipeline (`src/guardrails.py`)
and proofs about its classifier (`pii_detection`), its schema-validating
extractor with linear-backoff retry (`pii_extraction`), the inference
client (`query`), and the pydantic record model (`PII`).

The remote model endpoint is external: it is modelled as an oracle giving
each remote call's outcome (a completion text, or a transport-level
failure).  Remote completions are strings; `PII.parse_raw` decodes them
as JSON and validates them against the seven-field schema exactly as
pydantic v1's `PII.parse_raw` does (a JSON decode error is absorbed into
a `ValidationError`, `Optional[str]` fields default to `None` when the
key is missing or null, extra keys are ignored, numeric and boolean
values are coerced to their string rendering).

Modelling notes on the JSON decoder (`json_loads`, standing for Python's
`json.loads`): numbers are decoded as integers only and `\u`, `\b`, `\f`
escapes are not decoded (inputs using floats, exponents or those escapes
fail to parse in this model); no claim under verification involves such
payloads.
-/

namespace Guardrails

/-- A decoded JSON value, as produced by `json.loads`.  Object field lists
are duplicate-free: like a Python `dict`, a repeated key keeps the first
key's position and the last key's value (see `insertKey`). -/
inductive Json : Type where
  | null : Json
  | bool (b : Bool) : Json
  | num (n : Int) : Json
  | str (s : String) : Json
  | arr (elements : List Json) : Json
  | obj (fields : List (String × Json)) : Json

/-- Skip JSON whitespace, as `json.loads` does between tokens. -/
def skipWs : List Char → List Char
  | [] => []
  | c :: cs => if c == ' ' || c == '\t' || c == '\n' || c == '\r' then skipWs cs else c :: cs

/-- Read the body of a JSON string literal (the opening quote already
consumed), decoding escapes, up to the closing quote. -/
def parseStrChars : Nat → List Char → Option (List Char × List Char)
  | 0, _ => none
  | _, [] => none
  | fuel + 1, c :: cs =>
    if c == '"' then some ([], cs)
    else if c == '\\' then
      match cs with
      | [] => none
      | e :: cs2 =>
        match (if e == '"' then some '"' else if e == '\\' then some '\\'
               else if e == '/' then some '/' else if e == 'n' then some '\n'
               else if e == 't' then some '\t' else if e == 'r' then some '\r'
               else none) with
        | none => none
        | some d =>
          match parseStrChars fuel cs2 with
          | none => none
          | some (s, rest) => some (d :: s, rest)
    else
      match parseStrChars fuel cs with
      | none => none
      | some (s, rest) => some (c :: s, rest)

/-- Take a maximal run of decimal digits. -/
def takeDigits : List Char → List Char × List Char
  | [] => ([], [])
  | c :: cs =>
    if c.isDigit then
      let p := takeDigits cs
      (c :: p.1, p.2)
    else ([], c :: cs)

/-- Decimal digits to a natural number. -/
def digitsToNat (ds : List Char) : Nat :=
  ds.foldl (fun acc c => 10 * acc + (c.toNat - 48)) 0

/-- Parse a JSON number (integer part only; see the modelling notes). -/
def parseNumber : List Char → Option (Json × List Char)
  | '-' :: rest =>
    match takeDigits rest with
    | ([], _) => none
    | (ds, rest2) => some (Json.num (-(digitsToNat ds : Int)), rest2)
  | cs =>
    match takeDigits cs with
    | ([], _) => none
    | (ds, rest2) => some (Json.num (digitsToNat ds), rest2)

/-- Match an expected literal tail (for `null`, `true`, `false`). -/
def stripChars : List Char → List Char → Option (List Char)
  | [], cs => some cs
  | _ :: _, [] => none
  | p :: ps, c :: cs => if c == p then stripChars ps cs else none

/-- Insert a key into an object under Python `dict` semantics: a repeated
key keeps its first position and takes the last value. -/
def insertKey : List (String × Json) → String → Json → List (String × Json)
  | [], k, v => [(k, v)]
  | (k2, v2) :: rest, k, v =>
    if k2 == k then (k2, v) :: rest else (k2, v2) :: insertKey rest k v

/-- Parse the elements of a JSON array, the opening `[` already consumed
(and whitespace after it skipped).  `pv` parses one JSON value. -/
def arrayItems (pv : List Char → Option (Json × List Char)) :
    Nat → List Char → List Json → Option (Json × List Char)
  | 0, _, _ => none
  | m + 1, cs, acc =>
    match skipWs cs with
    | ']' :: rest =>
      match acc with
      | [] => some (Json.arr [], rest)
      | _ => none
    | cs1 =>
      match pv cs1 with
      | none => none
      | some (v, rest) =>
        match skipWs rest with
        | ',' :: rest2 => arrayItems pv m rest2 (v :: acc)
        | ']' :: rest2 => some (Json.arr (v :: acc).reverse, rest2)
        | _ => none

/-- Parse the members of a JSON object, the opening brace already
consumed.  `pv` parses one JSON value. -/
def objectItems (pv : List Char → Option (Json × List Char)) :
    Nat → List Char → List (String × Json) → Option (Json × List Char)
  | 0, _, _ => none
  | m + 1, cs, acc =>
    match skipWs cs with
    | '\x7d' :: rest =>
      match acc with
      | [] => some (Json.obj [], rest)
      | _ => none
    | '"' :: cs1 =>
      match parseStrChars (cs1.length + 1) cs1 with
      | none => none
      | some (keyChars, rest1) =>
        match skipWs rest1 with
        | ':' :: rest2 =>
          match pv (skipWs rest2) with
          | none => none
          | some (v, rest3) =>
            match skipWs rest3 with
            | ',' :: rest4 => objectItems pv m rest4 (insertKey acc (String.mk keyChars) v)
            | '\x7d' :: rest4 => some (Json.obj (insertKey acc (String.mk keyChars) v), rest4)
            | _ => none
        | _ => none
    | _ => none

/-- Parse one JSON value.  Fuel bounds the nesting depth; every nesting
level consumes at least one character, so `input length + 1` is enough. -/
def parseValue : Nat → List Char → Option (Json × List Char)
  | 0, _ => none
  | fuel + 1, cs =>
    match skipWs cs with
    | [] => none
    | c :: cs1 =>
      if c == 'n' then
        match stripChars ['u', 'l', 'l'] cs1 with
        | some rest => some (Json.null, rest)
        | none => none
      else if c == 't' then
        match stripChars ['r', 'u', 'e'] cs1 with
        | some rest => some (Json.bool true, rest)
        | none => none
      else if c == 'f' then
        match stripChars ['a', 'l', 's', 'e'] cs1 with
        | some rest => some (Json.bool false, rest)
        | none => none
      else if c == '"' then
        match parseStrChars (cs1.length + 1) cs1 with
        | none => none
        | some (s, rest) => some (Json.str (String.mk s), rest)
      else if c == '\x7b' then
        objectItems (fun cs2 => parseValue fuel cs2) (fuel + 1) cs1 []
      else if c == '[' then
        arrayItems (fun cs2 => parseValue fuel cs2) (fuel + 1) cs1 []
      else
        parseNumber (c :: cs1)

/-- `json.loads`: decode a whole string as one JSON value (surrounding
whitespace allowed), or fail. -/
def json_loads (s : String) : Option Json :=
  match parseValue (s.length + 1) s.data with
  | none => none
  | some (j, rest) =>
    match skipWs rest with
    | [] => some j
    | _ => none

/-- The pydantic `ValidationError` (its message payload is not modelled). -/
inductive ValidationError : Type where
  | validationError : ValidationError
deriving DecidableEq

/-- Pydantic model for PII information (`class PII(BaseModel)`, fields in
declaration order). -/
structure PII : Type where
  explanation : Option String
  name : Option String
  number : Option String
  email : Option String
  address : Option String
  social_security_number : Option String
  credit_card_number : Option String
deriving DecidableEq

/-- Validate one `Optional[str]` field under pydantic v1 semantics: a
missing key or JSON null gives `None`; a string is taken as is; a number
or boolean is coerced to its string rendering; any other JSON value is a
validation error. -/
def validateOptionalStr : Option Json → Except ValidationError (Option String)
  | none => Except.ok none
  | some Json.null => Except.ok none
  | some (Json.str s) => Except.ok (some s)
  | some (Json.num n) => Except.ok (some (toString n))
  | some (Json.bool b) => Except.ok (some (if b then "True" else "False"))
  | some _ => Except.error ValidationError.validationError

/-- Look a key up in a decoded JSON object (object field lists are
duplicate-free, see `insertKey`). -/
def lookupField (fields : List (String × Json)) (k : String) : Option Json :=
  Option.map Prod.snd (List.find? (fun p => p.1 == k) fields)

/-- Validate a decoded JSON value against the `PII` schema (pydantic v1
`parse_obj`): the value must be an object; each of the seven declared
fields validates as `Optional[str]`; extra keys are ignored. -/
def PII.validate : Json → Except ValidationError PII
  | Json.obj fields => do
    let explanation ← validateOptionalStr (lookupField fields "explanation")
    let name ← validateOptionalStr (lookupField fields "name")
    let number ← validateOptionalStr (lookupField fields "number")
    let email ← validateOptionalStr (lookupField fields "email")
    let address ← validateOptionalStr (lookupField fields "address")
    let ssn ← validateOptionalStr (lookupField fields "social_security_number")
    let ccn ← validateOptionalStr (lookupField fields "credit_card_number")
    Except.ok ⟨explanation, name, number, email, address, ssn, ccn⟩
  | _ => Except.error ValidationError.validationError

/-- `PII.parse_raw` (pydantic v1): decode the text as JSON — a decode
failure is raised as a `ValidationError` — then validate the object. -/
def PII.parse_raw (text : String) : Except ValidationError PII :=
  match json_loads text with
  | none => Except.error ValidationError.validationError
  | some j => PII.validate j

/-- A field value as it appears in `PII().dict()`: `None` renders as JSON
null, a string as itself. -/
def optStrJson : Option String → Json
  | none => Json.null
  | some s => Json.str s

/-- `parsed_response.dict()`: the record as a dictionary, keys in field
declaration order, unset fields mapped to the null value. -/
def PII.dict (p : PII) : List (String × Json) :=
  [("explanation", optStrJson p.explanation),
   ("name", optStrJson p.name),
   ("number", optStrJson p.number),
   ("email", optStrJson p.email),
   ("address", optStrJson p.address),
   ("social_security_number", optStrJson p.social_security_number),
   ("credit_card_number", optStrJson p.credit_card_number)]

/-! ## The inference client (`query`) -/

/-- Module-level constant `MODEL`. -/
def MODEL : String := "anthropic.claude-v1"

/-- Module-level constant `accept`. -/
def accept : String := "application/json"

/-- Module-level constant `contentType`. -/
def contentType : String := "application/json"

/-- The JSON body `query` serializes: the prompt plus the fixed decoding
parameters (the source's `temperature` is the float `0.0`, modelled as
the rational `0`). -/
structure RequestBody : Type where
  prompt : String
  max_tokens_to_sample : Nat
  temperature : ℚ
  stop_sequences : List String

/-- One `client.invoke_model` call's arguments. -/
structure Request : Type where
  body : RequestBody
  modelId : String
  accept : String
  contentType : String

/-- The outcome of one remote call, as seen by the caller of `query`:
either the completion text extracted from the response body, or a
transport-level failure (network/auth/service error raised by the
client, not caught anywhere in this program). -/
inductive QueryResult : Type where
  | completion (text : String) : QueryResult
  | transportError : QueryResult

/-- `query`: build the request body from the prompt and the fixed
decoding parameters and issue exactly one `invoke_model` call.  The
remote endpoint is the oracle `endpoint`; the second component is the
list of outbound calls this invocation issues. -/
def query (endpoint : Request → QueryResult) (prompt : String) :
    QueryResult × List Request :=
  (endpoint ⟨⟨prompt, 1000, 0, ["Human:"]⟩, MODEL, accept, contentType⟩,
   [⟨⟨prompt, 1000, 0, ["Human:"]⟩, MODEL, accept, contentType⟩])

/-! ## The classifier (`pii_detection`) -/

/-- Python's `str.isspace` on the whitespace characters relevant to
`str.strip()` (the ASCII ones; exotic unicode spaces are not modelled). -/
def isPySpace (c : Char) : Bool :=
  c == ' ' || c == '\t' || c == '\n' || c == '\r' || c == '\x0b' || c == '\x0c'

/-- Python's `str.strip()`: drop leading and trailing whitespace. -/
def pyStrip (s : String) : String :=
  String.mk (List.reverse (List.dropWhile isPySpace
    (List.reverse (List.dropWhile isPySpace s.data))))

/-- Python's `s.startswith(pre)`. -/
def startswith (s pre : String) : Bool :=
  List.isPrefixOf pre.data s.data

/-- The decision step of `pii_detection`, given the completion text the
remote model returned: strip surrounding whitespace and answer `true`
exactly when the stripped text starts with the literal `"True"`. -/
def pii_detection (response : String) : Bool :=
  let r := pyStrip response
  if startswith r "True" then true else false

/-! ## The extractor (`pii_extraction`) -/

/-- One observable effect of the extraction loop: an outbound remote
call, or an `asyncio.sleep` of the given number of seconds. -/
inductive Event : Type where
  | query : Event
  | sleep (seconds : Nat) : Event
deriving DecidableEq

/-- How one `pii_extraction` invocation ends: a returned dictionary, or
an uncaught transport error propagating past the extractor. -/
inductive ExtractResult : Type where
  | returned (d : List (String × Json)) : ExtractResult
  | raisedTransportError : ExtractResult

/-- The sentinel `pii_extraction` returns after exhausting its retries. -/
def errorDict : List (String × Json) := [("error", Json.str "Max retries reached")]

/-- The `while retries < 3` loop of `pii_extraction`.  `responses k` is
the outcome of the `(k+1)`-th remote call; `remaining = 3 - retries`
makes the loop bound structural.  Each iteration issues one call; a
schema-valid completion returns `parsed_response.dict()` at once; a
`ValidationError` is caught, `retries` is incremented, the loop sleeps
`backoff_time` seconds and `backoff_time` is incremented; a transport
error is not caught and propagates.  After the 3rd failure the loop
exits and returns the error sentinel. -/
def extractLoop (responses : Nat → QueryResult) :
    Nat → Nat → Nat → ExtractResult × List Event
  | 0, _, _ => (ExtractResult.returned errorDict, [])
  | remaining + 1, retries, backoff_time =>
    match responses retries with
    | QueryResult.transportError => (ExtractResult.raisedTransportError, [Event.query])
    | QueryResult.completion text =>
      match PII.parse_raw text with
      | Except.ok parsed => (ExtractResult.returned (PII.dict parsed), [Event.query])
      | Except.error _ =>
        let rest := extractLoop responses remaining (retries + 1) (backoff_time + 1)
        (rest.1, Event.query :: Event.sleep backoff_time :: rest.2)

/-- `pii_extraction`, starting from `retries = 0`, `backoff_time = 1`,
paired with the trace of its observable effects in order. -/
def pii_extraction (responses : Nat → QueryResult) : ExtractResult × List Event :=
  extractLoop responses 3 0 1

/-! ## Helper definitions and lemmas about the extraction loop -/

/-- The event trace of `n` consecutive failed attempts starting with
backoff `b`: each attempt is one call followed by one sleep, the sleep
durations increasing by one second per failure. -/
def failEvents : Nat → Nat → List Event
  | 0, _ => []
  | n + 1, b => Event.query :: Event.sleep b :: failEvents n (b + 1)

/-- The seven schema keys, in `PII` field declaration order. -/
def piiKeys : List String :=
  ["explanation", "name", "number", "email", "address",
   "social_security_number", "credit_card_number"]

/-- `true` exactly on JSON null and JSON strings. -/
def Json.isNullOrStr : Json → Bool
  | Json.null => true
  | Json.str _ => true
  | _ => false

lemma extractLoop_step_fail (responses : Nat → QueryResult) (m retries b : Nat) (t : String)
    (h1 : responses retries = QueryResult.completion t)
    (h2 : PII.parse_raw t = Except.error ValidationError.validationError) :
    extractLoop responses (m + 1) retries b =
      ((extractLoop responses m (retries + 1) (b + 1)).1,
       Event.query :: Event.sleep b :: (extractLoop responses m (retries + 1) (b + 1)).2) := by
  simp [extractLoop, h1, h2]

lemma extractLoop_step_ok (responses : Nat → QueryResult) (m retries b : Nat)
    (t : String) (p : PII)
    (h1 : responses retries = QueryResult.completion t)
    (h2 : PII.parse_raw t = Except.ok p) :
    extractLoop responses (m + 1) retries b =
      (ExtractResult.returned (PII.dict p), [Event.query]) := by
  simp [extractLoop, h1, h2]

lemma extractLoop_step_transport (responses : Nat → QueryResult) (m retries b : Nat)
    (h1 : responses retries = QueryResult.transportError) :
    extractLoop responses (m + 1) retries b =
      (ExtractResult.raisedTransportError, [Event.query]) := by
  simp [extractLoop, h1]

/-- When every in-window attempt fails validation, the loop runs out of
retries: it returns the sentinel and its trace is `remaining` call/sleep
pairs, the last failure included. -/
lemma extractLoop_all_fail (responses : Nat → QueryResult) :
    ∀ remaining retries b,
      (∀ j, j < remaining → ∃ t, responses (retries + j) = QueryResult.completion t ∧
          PII.parse_raw t = Except.error ValidationError.validationError) →
      extractLoop responses remaining retries b =
        (ExtractResult.returned errorDict, failEvents remaining b) := by
  intro remaining
  induction remaining with
  | zero => intro retries b _; rfl
  | succ m ih =>
    intro retries b h
    obtain ⟨t, ht, hp⟩ := h 0 (Nat.succ_pos m)
    rw [Nat.add_zero] at ht
    rw [extractLoop_step_fail responses m retries b t ht hp]
    rw [ih (retries + 1) (b + 1) (fun j hj => by
      have h2 := h (j + 1) (Nat.succ_lt_succ hj)
      rwa [show retries + (j + 1) = retries + 1 + j by omega] at h2)]
    rfl

/-- If the first `k` in-window attempts fail validation and the
`(k+1)`-th parses, the loop returns that parse's dictionary right there:
`k` call/sleep pairs, one final call, nothing after it. -/
lemma extractLoop_success_at (responses : Nat → QueryResult) :
    ∀ k remaining retries b t p, k < remaining →
      (∀ j, j < k → ∃ u, responses (retries + j) = QueryResult.completion u ∧
          PII.parse_raw u = Except.error ValidationError.validationError) →
      responses (retries + k) = QueryResult.completion t →
      PII.parse_raw t = Except.ok p →
      extractLoop responses remaining retries b =
        (ExtractResult.returned (PII.dict p), failEvents k b ++ [Event.query]) := by
  intro k
  induction k with
  | zero =>
    intro remaining retries b t p hlt _ ht hp
    cases remaining with
    | zero => exact absurd hlt (Nat.lt_irrefl 0)
    | succ m =>
      rw [Nat.add_zero] at ht
      rw [extractLoop_step_ok responses m retries b t p ht hp]
      rfl
  | succ n ih =>
    intro remaining retries b t p hlt hfail ht hp
    cases remaining with
    | zero => exact absurd hlt (Nat.not_lt_zero (n + 1))
    | succ m =>
      obtain ⟨u, hu, hpu⟩ := hfail 0 (Nat.succ_pos n)
      rw [Nat.add_zero] at hu
      rw [extractLoop_step_fail responses m retries b u hu hpu]
      rw [ih m (retries + 1) (b + 1) t p (Nat.lt_of_succ_lt_succ hlt)
        (fun j hj => by
          have h2 := hfail (j + 1) (Nat.succ_lt_succ hj)
          rwa [show retries + (j + 1) = retries + 1 + j by omega] at h2)
        (by rwa [show retries + (n + 1) = retries + 1 + n by omega] at ht) hp]
      rfl

/-- If the first `k` in-window attempts fail validation and the
`(k+1)`-th remote call fails at the transport level, the loop neither
catches nor retries: the error propagates and the trace stops at that
call. -/
lemma extractLoop_transport_at (responses : Nat → QueryResult) :
    ∀ k remaining retries b, k < remaining →
      (∀ j, j < k → ∃ u, responses (retries + j) = QueryResult.completion u ∧
          PII.parse_raw u = Except.error ValidationError.validationError) →
      responses (retries + k) = QueryResult.transportError →
      extractLoop responses remaining retries b =
        (ExtractResult.raisedTransportError, failEvents k b ++ [Event.query]) := by
  intro k
  induction k with
  | zero =>
    intro remaining retries b hlt _ ht
    cases remaining with
    | zero => exact absurd hlt (Nat.lt_irrefl 0)
    | succ m =>
      rw [Nat.add_zero] at ht
      rw [extractLoop_step_transport responses m retries b ht]
      rfl
  | succ n ih =>
    intro remaining retries b hlt hfail ht
    cases remaining with
    | zero => exact absurd hlt (Nat.not_lt_zero (n + 1))
    | succ m =>
      obtain ⟨u, hu, hpu⟩ := hfail 0 (Nat.succ_pos n)
      rw [Nat.add_zero] at hu
      rw [extractLoop_step_fail responses m retries b u hu hpu]
      rw [ih m (retries + 1) (b + 1) (Nat.lt_of_succ_lt_succ hlt)
        (fun j hj => by
          have h2 := hfail (j + 1) (Nat.succ_lt_succ hj)
          rwa [show retries + (j + 1) = retries + 1 + j by omega] at h2)
        (by rwa [show retries + (n + 1) = retries + 1 + n by omega] at ht)]
      rfl

/-- As long as no in-window remote call fails at the transport level,
the loop returns a dictionary (it cannot end any other way). -/
lemma extractLoop_returns (responses : Nat → QueryResult) :
    ∀ remaining retries b,
      (∀ j, j < remaining → responses (retries + j) ≠ QueryResult.transportError) →
      ∃ d, (extractLoop responses remaining retries b).1 = ExtractResult.returned d := by
  intro remaining
  induction remaining with
  | zero => intro retries b _; exact ⟨errorDict, rfl⟩
  | succ m ih =>
    intro retries b h
    cases hr : responses retries with
    | transportError =>
      have h0 := h 0 (Nat.succ_pos m)
      rw [Nat.add_zero] at h0
      exact absurd hr h0
    | completion text =>
      cases hp : PII.parse_raw text with
      | ok p =>
        exact ⟨PII.dict p, by rw [extractLoop_step_ok responses m retries b text p hr hp]⟩
      | error e =>
        obtain ⟨d, hd⟩ := ih (retries + 1) (b + 1) (fun j hj => by
          have h2 := h (j + 1) (Nat.succ_lt_succ hj)
          rwa [show retries + (j + 1) = retries + 1 + j by omega] at h2)
        cases e
        exact ⟨d, by rw [extractLoop_step_fail responses m retries b text hr hp]; exact hd⟩

/-- Every dictionary the loop can return is either some record's
`.dict()` or the error sentinel. -/
lemma extractLoop_returned_shape (responses : Nat → QueryResult) :
    ∀ remaining retries b d,
      (extractLoop responses remaining retries b).1 = ExtractResult.returned d →
      (∃ p : PII, d = PII.dict p) ∨ d = errorDict := by
  intro remaining
  induction remaining with
  | zero =>
    intro retries b d h
    simp only [extractLoop] at h
    exact Or.inr (ExtractResult.returned.inj h).symm
  | succ m ih =>
    intro retries b d h
    cases hr : responses retries with
    | transportError =>
      rw [extractLoop_step_transport responses m retries b hr] at h
      exact absurd h (fun h2 => ExtractResult.noConfusion h2)
    | completion text =>
      cases hp : PII.parse_raw text with
      | ok p =>
        rw [extractLoop_step_ok responses m retries b text p hr hp] at h
        exact Or.inl ⟨p, (ExtractResult.returned.inj h).symm⟩
      | error e =>
        cases e
        rw [extractLoop_step_fail responses m retries b text hr hp] at h
        exact ih (retries + 1) (b + 1) d h

/-- A record dictionary is never the error sentinel (they do not even
have the same number of keys). -/
lemma dict_ne_errorDict (p : PII) : PII.dict p ≠ errorDict := by
  intro h
  have hlen : (PII.dict p).length = errorDict.length := by rw [h]
  simp [PII.dict, errorDict] at hlen

/-- `Except`'s bind applied to a success, as a rewrite rule for
unfolding `PII.validate`'s do-block. -/
lemma exceptBind_ok {ε α β : Type} (a : α) (f : α → Except ε β) :
    (Bind.bind (Except.ok a) f : Except ε β) = f a := rfl

/-- A field value drawn from an object all of whose values are null or
strings validates as `Optional[str]`. -/
lemma validate_lookupField_ok (fields : List (String × Json)) (k : String)
    (hvals : ∀ kv, kv ∈ fields → kv.2.isNullOrStr = true) :
    ∃ o, validateOptionalStr (lookupField fields k) = Except.ok o := by
  cases hf : lookupField fields k with
  | none => exact ⟨none, rfl⟩
  | some v =>
    obtain ⟨kv, hfind, hsnd⟩ := Option.map_eq_some'.mp hf
    have hmem : kv ∈ fields := List.mem_of_find?_eq_some hfind
    have hv : v.isNullOrStr = true := hsnd ▸ hvals kv hmem
    cases v with
    | null => exact ⟨none, rfl⟩
    | str s => exact ⟨some s, rfl⟩
    | bool b => exact absurd hv (by simp [Json.isNullOrStr])
    | num n => exact absurd hv (by simp [Json.isNullOrStr])
    | arr xs => exact absurd hv (by simp [Json.isNullOrStr])
    | obj fs => exact absurd hv (by simp [Json.isNullOrStr])

/-! ## Concrete response oracles used as witnesses -/

/-- A model that always answers with a completion that is not JSON. -/
def allBad : Nat → QueryResult := fun _ => QueryResult.completion "not json"

/-- A schema-valid completion asserting only the email field. -/
def goodText : String := "\x7b\"email\": \"a@b.com\"\x7d"

/-- A model whose first completion is not JSON and whose later
completions are schema-valid. -/
def mixed : Nat → QueryResult
  | 0 => QueryResult.completion "not json"
  | _ + 1 => QueryResult.completion goodText

/-- A model whose first completion is not JSON and whose second remote
call fails at the transport level. -/
def transportAt1 : Nat → QueryResult
  | 0 => QueryResult.completion "not json"
  | _ + 1 => QueryResult.transportError

/-! ## The claims -/

/-- C1, counterexample: on a model whose completions are never
schema-valid, `pii_extraction` makes 3 attempts sleeping 1s, 2s and —
against the claim — 3s after the 3rd failure, so its trace is not the
claimed one ending at the 3rd call. -/
theorem C1_counterexample :
    (pii_extraction allBad).2 =
      [Event.query, Event.sleep 1, Event.query, Event.sleep 2, Event.query, Event.sleep 3] ∧
    (pii_extraction allBad).2 ≠
      [Event.query, Event.sleep 1, Event.query, Event.sleep 2, Event.query] := by
  decide

/-- C1, amended: when every completion fails schema validation,
`pii_extraction` performs exactly 3 attempts with backoff delays
observed in order — 1 second before the 2nd attempt, 2 seconds before
the 3rd — and the 3rd failure triggers one final 3-second delay before
the sentinel is returned. -/
theorem C1_three_attempts_backoff (responses : Nat → QueryResult)
    (h : ∀ k, k < 3 → ∃ t, responses k = QueryResult.completion t ∧
        PII.parse_raw t = Except.error ValidationError.validationError) :
    (pii_extraction responses).2 =
      [Event.query, Event.sleep 1, Event.query, Event.sleep 2, Event.query, Event.sleep 3] := by
  have hall := extractLoop_all_fail responses 3 0 1 (fun j hj => by
    simpa using h j (by omega))
  rw [show pii_extraction responses = extractLoop responses 3 0 1 from rfl, hall]
  rfl

/-- C1, witness: the amended theorem applied to the always-invalid
model. -/
theorem C1_three_attempts_backoff_witness :
    (∀ k, k < 3 → ∃ t, allBad k = QueryResult.completion t ∧
        PII.parse_raw t = Except.error ValidationError.validationError) ∧
    (pii_extraction allBad).2 =
      [Event.query, Event.sleep 1, Event.query, Event.sleep 2, Event.query, Event.sleep 3] :=
  ⟨fun _ _ => ⟨"not json", rfl, rfl⟩,
   C1_three_attempts_backoff allBad (fun _ _ => ⟨"not json", rfl, rfl⟩)⟩

/-- `startswith` characterized: `s` starts with `pre` exactly when `s`
is `pre` followed by some remainder. -/
lemma startswith_iff (s pre : String) :
    startswith s pre = true ↔ ∃ rest : String, s = pre ++ rest := by
  unfold startswith
  rw [List.isPrefixOf_iff_prefix]
  constructor
  · rintro ⟨t, ht⟩
    exact ⟨String.mk t, String.ext (by rw [String.data_append]; exact ht.symm)⟩
  · rintro ⟨rest, hr⟩
    exact ⟨rest.data, by rw [hr, String.data_append]⟩

/-- C2: `pii_detection` answers `true` exactly when the
whitespace-stripped response starts with the literal `"True"` (that is,
when the stripped response is `"True"` followed by anything); the
responses `"False"` and `""` give `false`; and it is total (it always
answers one of the two booleans — it never raises). -/
theorem C2_detection_prefix_rule (response : String) :
    (pii_detection response = true ↔ ∃ rest : String, pyStrip response = "True" ++ rest) ∧
    pii_detection "False" = false ∧
    pii_detection "" = false ∧
    (pii_detection response = true ∨ pii_detection response = false) := by
  refine ⟨?_, rfl, rfl, ?_⟩
  · rw [show pii_detection response = startswith (pyStrip response) "True" by
      cases h : startswith (pyStrip response) "True" <;> simp [pii_detection, h]]
    exact startswith_iff (pyStrip response) "True"
  · cases h : pii_detection response
    · exact Or.inr rfl
    · exact Or.inl rfl

/-- C3: whenever no remote call fails at the transport level (the only
way the extractor can end exceptionally), one `pii_extraction`
invocation produces exactly one outcome: one dictionary, which is a
parsed record or the explicit failure value — never both, never
neither. -/
theorem C3_exactly_one_outcome (responses : Nat → QueryResult)
    (h : ∀ k, k < 3 → responses k ≠ QueryResult.transportError) :
    ∃ d, (pii_extraction responses).1 = ExtractResult.returned d ∧
      ((∃ p : PII, d = PII.dict p) ∨ d = errorDict) ∧
      ¬((∃ p : PII, d = PII.dict p) ∧ d = errorDict) := by
  obtain ⟨d, hd⟩ := extractLoop_returns responses 3 0 1 (fun j hj => by
    simpa using h j (by omega))
  refine ⟨d, hd, extractLoop_returned_shape responses 3 0 1 d hd, ?_⟩
  rintro ⟨⟨p, hp⟩, he⟩
  exact dict_ne_errorDict p (hp.symm.trans he)

/-- C3, witness: the theorem applied to the always-invalid model. -/
theorem C3_exactly_one_outcome_witness :
    (∀ k, k < 3 → allBad k ≠ QueryResult.transportError) ∧
    (∃ d, (pii_extraction allBad).1 = ExtractResult.returned d ∧
      ((∃ p : PII, d = PII.dict p) ∨ d = errorDict) ∧
      ¬((∃ p : PII, d = PII.dict p) ∧ d = errorDict)) :=
  ⟨fun _ _ h => QueryResult.noConfusion h,
   C3_exactly_one_outcome allBad (fun _ _ h => QueryResult.noConfusion h)⟩

/-- C4: after three failed validation attempts, `pii_extraction`
returns the explicit failure sentinel — a value distinct from every
valid record's dictionary — rather than raising the validation
failures past its boundary. -/
theorem C4_exhaustion_sentinel (responses : Nat → QueryResult)
    (h : ∀ k, k < 3 → ∃ t, responses k = QueryResult.completion t ∧
        PII.parse_raw t = Except.error ValidationError.validationError) :
    (pii_extraction responses).1 = ExtractResult.returned errorDict ∧
    ∀ p : PII, PII.dict p ≠ errorDict := by
  refine ⟨?_, dict_ne_errorDict⟩
  have hall := extractLoop_all_fail responses 3 0 1 (fun j hj => by
    simpa using h j (by omega))
  rw [show pii_extraction responses = extractLoop responses 3 0 1 from rfl, hall]

/-- C4, witness: the theorem applied to the always-invalid model. -/
theorem C4_exhaustion_sentinel_witness :
    (∀ k, k < 3 → ∃ t, allBad k = QueryResult.completion t ∧
        PII.parse_raw t = Except.error ValidationError.validationError) ∧
    ((pii_extraction allBad).1 = ExtractResult.returned errorDict ∧
     ∀ p : PII, PII.dict p ≠ errorDict) :=
  ⟨fun _ _ => ⟨"not json", rfl, rfl⟩,
   C4_exhaustion_sentinel allBad (fun _ _ => ⟨"not json", rfl, rfl⟩)⟩

/-- C5: if the response of the 1st, 2nd or 3rd attempt (the first `k`
attempts having failed validation) is schema-valid, `pii_extraction`
returns that attempt's parsed record right there: the trace shows the
`k` earlier failures' calls and sleeps, then the successful call, and
nothing after it — no further attempt and no further backoff delay. -/
theorem C5_returns_on_valid_attempt (responses : Nat → QueryResult) (k : Nat) (t : String)
    (p : PII) (hk : k < 3)
    (hfail : ∀ j, j < k → ∃ u, responses j = QueryResult.completion u ∧
        PII.parse_raw u = Except.error ValidationError.validationError)
    (ht : responses k = QueryResult.completion t)
    (hp : PII.parse_raw t = Except.ok p) :
    pii_extraction responses =
      (ExtractResult.returned (PII.dict p), failEvents k 1 ++ [Event.query]) :=
  extractLoop_success_at responses k 3 0 1 t p hk
    (fun j hj => by simpa using hfail j hj)
    (by simpa using ht) hp

/-- The record parsed from `goodText`. -/
def pGood : PII := ⟨none, none, none, some "a@b.com", none, none, none⟩

/-- C5, witness: a first invalid completion, then a schema-valid one;
extraction returns `pGood`'s dictionary on the 2nd attempt. -/
theorem C5_returns_on_valid_attempt_witness :
    1 < 3 ∧
    (∀ j, j < 1 → ∃ u, mixed j = QueryResult.completion u ∧
        PII.parse_raw u = Except.error ValidationError.validationError) ∧
    mixed 1 = QueryResult.completion goodText ∧
    PII.parse_raw goodText = Except.ok pGood ∧
    pii_extraction mixed =
      (ExtractResult.returned (PII.dict pGood), failEvents 1 1 ++ [Event.query]) :=
  ⟨by omega,
   fun j hj => by
     have hj0 : j = 0 := Nat.lt_one_iff.mp hj
     subst hj0
     exact ⟨"not json", rfl, rfl⟩,
   rfl, rfl,
   C5_returns_on_valid_attempt mixed 1 goodText pGood (by omega)
     (fun j hj => by
       have hj0 : j = 0 := Nat.lt_one_iff.mp hj
       subst hj0
       exact ⟨"not json", rfl, rfl⟩)
     rfl rfl⟩

/-- C6: a transport error during any attempt (the earlier attempts
having failed validation) is not caught and not retried: the loop's
handler only absorbs schema-validation failures, so the error
propagates past the extractor and the trace stops at that call. -/
theorem C6_transport_not_caught (responses : Nat → QueryResult) (k : Nat) (hk : k < 3)
    (hfail : ∀ j, j < k → ∃ u, responses j = QueryResult.completion u ∧
        PII.parse_raw u = Except.error ValidationError.validationError)
    (ht : responses k = QueryResult.transportError) :
    pii_extraction responses =
      (ExtractResult.raisedTransportError, failEvents k 1 ++ [Event.query]) :=
  extractLoop_transport_at responses k 3 0 1 hk
    (fun j hj => by simpa using hfail j hj)
    (by simpa using ht)

/-- C6, witness: a first invalid completion, then a transport failure
on the 2nd remote call; the error propagates uncaught. -/
theorem C6_transport_not_caught_witness :
    1 < 3 ∧
    (∀ j, j < 1 → ∃ u, transportAt1 j = QueryResult.completion u ∧
        PII.parse_raw u = Except.error ValidationError.validationError) ∧
    transportAt1 1 = QueryResult.transportError ∧
    pii_extraction transportAt1 =
      (ExtractResult.raisedTransportError, failEvents 1 1 ++ [Event.query]) :=
  ⟨by omega,
   fun j hj => by
     have hj0 : j = 0 := Nat.lt_one_iff.mp hj
     subst hj0
     exact ⟨"not json", rfl, rfl⟩,
   rfl,
   C6_transport_not_caught transportAt1 1 (by omega)
     (fun j hj => by
       have hj0 : j = 0 := Nat.lt_one_iff.mp hj
       subst hj0
       exact ⟨"not json", rfl, rfl⟩)
     rfl⟩

/-- C7: `query` issues exactly one outbound call per invocation, whose
request is built deterministically from the prompt plus the fixed
decoding parameters — `max_tokens_to_sample = 1000`,
`temperature = 0.0` and the fixed stop-sequence marker `"Human:"` —
independently of the endpoint's behavior; no retry happens at this
layer. -/
theorem C7_query_single_deterministic_call
    (endpoint : Request → QueryResult) (prompt : String) :
    (query endpoint prompt).2 =
      [⟨⟨prompt, 1000, 0, ["Human:"]⟩,
        "anthropic.claude-v1", "application/json", "application/json"⟩] ∧
    List.length (query endpoint prompt).2 = 1 ∧
    (∀ endpoint2 : Request → QueryResult,
      (query endpoint prompt).2 = (query endpoint2 prompt).2) :=
  ⟨rfl, rfl, fun _ => rfl⟩

/-- The JSON text of claim C8 (braces written as `\x7b`/`\x7d`). -/
def c8Text : String :=
  "\x7b\"name\": null, \"number\": null, \"email\": \"a@b.com\", \"address\": null, \"social_security_number\": null, \"credit_card_number\": null, \"explanation\": \"contains email\"\x7d"

set_option maxRecDepth 100000 in
/-- C8: the record parsed from the claim's JSON text has
`email = "a@b.com"` and every other PII field absent (and the
explanation populated as given). -/
theorem C8_single_email_record :
    ∃ p : PII, PII.parse_raw c8Text = Except.ok p ∧
      p.email = some "a@b.com" ∧ p.name = none ∧ p.number = none ∧
      p.address = none ∧ p.social_security_number = none ∧
      p.credit_card_number = none ∧ p.explanation = some "contains email" :=
  ⟨⟨some "contains email", none, none, some "a@b.com", none, none, none⟩,
   rfl, rfl, rfl, rfl, rfl, rfl, rfl, rfl⟩

/-- C9: a JSON object supplying any subset of the seven schema fields
(with null-or-string values) validates — no field is required — and a
missing or null field comes out as `none`, which is distinct from the
empty string's `some ""`. -/
theorem C9_all_fields_optional (fields : List (String × Json))
    (_hkeys : ∀ kv, kv ∈ fields → kv.1 ∈ piiKeys)
    (hvals : ∀ kv, kv ∈ fields → kv.2.isNullOrStr = true) :
    (∃ p : PII, PII.validate (Json.obj fields) = Except.ok p) ∧
    validateOptionalStr none = Except.ok none ∧
    validateOptionalStr (some Json.null) = Except.ok none ∧
    validateOptionalStr (some (Json.str "")) = Except.ok (some "") ∧
    (some "" : Option String) ≠ none := by
  refine ⟨?_, rfl, rfl, rfl, by simp⟩
  obtain ⟨o1, h1⟩ := validate_lookupField_ok fields "explanation" hvals
  obtain ⟨o2, h2⟩ := validate_lookupField_ok fields "name" hvals
  obtain ⟨o3, h3⟩ := validate_lookupField_ok fields "number" hvals
  obtain ⟨o4, h4⟩ := validate_lookupField_ok fields "email" hvals
  obtain ⟨o5, h5⟩ := validate_lookupField_ok fields "address" hvals
  obtain ⟨o6, h6⟩ := validate_lookupField_ok fields "social_security_number" hvals
  obtain ⟨o7, h7⟩ := validate_lookupField_ok fields "credit_card_number" hvals
  exact ⟨⟨o1, o2, o3, o4, o5, o6, o7⟩, by
    simp [PII.validate, h1, h2, h3, h4, h5, h6, h7, exceptBind_ok]⟩

/-- A two-field subset of the schema, used as the C9 witness input. -/
def c9Fields : List (String × Json) :=
  [("email", Json.str "a@b.com"), ("name", Json.null)]

/-- C9, witness: the theorem applied to an object supplying only the
`email` and `name` fields. -/
theorem C9_all_fields_optional_witness :
    (∀ kv, kv ∈ c9Fields → kv.1 ∈ piiKeys) ∧
    (∀ kv, kv ∈ c9Fields → kv.2.isNullOrStr = true) ∧
    ((∃ p : PII, PII.validate (Json.obj c9Fields) = Except.ok p) ∧
     validateOptionalStr none = Except.ok none ∧
     validateOptionalStr (some Json.null) = Except.ok none ∧
     validateOptionalStr (some (Json.str "")) = Except.ok (some "") ∧
     (some "" : Option String) ≠ none) :=
  ⟨by decide, by decide,
   C9_all_fields_optional c9Fields (by decide) (by decide)⟩

/-- C10: every dictionary `pii_extraction` returns is distinguishable
by its key set: a success carries exactly the seven schema keys in
declaration order with unasserted fields mapped to the null value, an
exhaustion carries exactly the key `"error"`, and the two key sets are
disjoint. -/
theorem C10_key_sets_distinguish (responses : Nat → QueryResult) (d : List (String × Json))
    (h : (pii_extraction responses).1 = ExtractResult.returned d) :
    ((∃ p : PII, d = PII.dict p ∧ List.map Prod.fst d = piiKeys ∧
        (p.explanation = none → ("explanation", Json.null) ∈ d) ∧
        (p.name = none → ("name", Json.null) ∈ d) ∧
        (p.number = none → ("number", Json.null) ∈ d) ∧
        (p.email = none → ("email", Json.null) ∈ d) ∧
        (p.address = none → ("address", Json.null) ∈ d) ∧
        (p.social_security_number = none → ("social_security_number", Json.null) ∈ d) ∧
        (p.credit_card_number = none → ("credit_card_number", Json.null) ∈ d)) ∨
      (d = errorDict ∧ List.map Prod.fst d = ["error"])) ∧
    (∀ s, s ∈ piiKeys → s ∉ (["error"] : List String)) := by
  refine ⟨?_, by decide⟩
  rcases extractLoop_returned_shape responses 3 0 1 d h with ⟨p, hp⟩ | he
  · subst hp
    refine Or.inl ⟨p, rfl, rfl, ?_, ?_, ?_, ?_, ?_, ?_, ?_⟩ <;>
      intro h0 <;> simp [PII.dict, optStrJson, h0]
  · subst he
    exact Or.inr ⟨rfl, rfl⟩

/-- C10, witness: the theorem applied to the always-invalid model,
whose extraction returns the error sentinel. -/
theorem C10_key_sets_distinguish_witness :
    (pii_extraction allBad).1 = ExtractResult.returned errorDict ∧
    (((∃ p : PII, errorDict = PII.dict p ∧ List.map Prod.fst errorDict = piiKeys ∧
        (p.explanation = none → ("explanation", Json.null) ∈ errorDict) ∧
        (p.name = none → ("name", Json.null) ∈ errorDict) ∧
        (p.number = none → ("number", Json.null) ∈ errorDict) ∧
        (p.email = none → ("email", Json.null) ∈ errorDict) ∧
        (p.address = none → ("address", Json.null) ∈ errorDict) ∧
        (p.social_security_number = none → ("social_security_number", Json.null) ∈ errorDict) ∧
        (p.credit_card_number = none → ("credit_card_number", Json.null) ∈ errorDict)) ∨
      (errorDict = errorDict ∧ List.map Prod.fst errorDict = ["error"])) ∧
     (∀ s, s ∈ piiKeys → s ∉ (["error"] : List String))) :=
  ⟨rfl, C10_key_sets_distinguish allBad errorDict rfl⟩

end Guardrails
